import Mathlib

/-!
Shallow embedding of `Level_World.py`, a turn-based roguelike: tile grid,
procedural dungeon generation (rooms, L-shaped corridors, floor items),
the actor model (movement, damage, XP/leveling), combat resolution, and
the per-turn engine including floor transitions.  Python's module-global
`random` source is modelled as an explicit oracle stream threaded through
every randomized operation; Python floats are modelled as exact rationals.
Rendering, fonts, keyboard polling and CLI parsing are outside the model.
-/

/-- Oracle for Python's global `random`: an infinite stream of raw integer
draws together with a cursor.  Each randomness primitive below consumes
exactly one draw, in the order the source consumes them. -/
structure Rng where
  stream : Nat → Int
  pos : Nat

/-- Consume one raw draw from the oracle. -/
def Rng.next (r : Rng) : Int × Rng :=
  (r.stream r.pos, ⟨r.stream, r.pos + 1⟩)

/-- Embeds `random.random()`: a rational in `[0, 1)` (floats are modelled
as exact rationals with denominator `10^6`). -/
def randFloat (r : Rng) : ℚ × Rng :=
  let k := r.next.1
  (((k.natAbs % 1000000 : ℕ) : ℚ) / 1000000, r.next.2)

/-- Embeds `random.randint(lo, hi)` (inclusive bounds): the raw draw is
reduced into the requested range; for `lo ≤ hi` the result always lies in
`[lo, hi]`. -/
def randint (lo hi : Int) (r : Rng) : Int × Rng :=
  let k := r.next.1
  (lo + (k.natAbs : Int) % (hi - lo + 1), r.next.2)

/-- Embeds `random.choice([True, False])` (line 126 of the source). -/
def choice2 (r : Rng) : Bool × Rng :=
  (r.next.1 % 2 == 0, r.next.2)

/-- Embeds class `Tile` (lines 37-41). -/
structure Tile where
  blocked : Bool
  block_sight : Bool
  explored : Bool
deriving DecidableEq

/-- Embeds `Tile.__init__` with `block_sight=None`: `block_sight` defaults
to `blocked`, `explored` starts `False`. -/
def Tile.make (blocked : Bool) : Tile := ⟨blocked, blocked, false⟩

/-- Embeds class `Item` (lines 44-47). -/
structure Item where
  x : Int
  y : Int
  name : String
  char : String
  color : Int × Int × Int
  effect : Option String
deriving DecidableEq

/-- Embeds class `Rect` (lines 50-57). -/
structure Rect where
  x1 : Int
  y1 : Int
  x2 : Int
  y2 : Int
deriving DecidableEq

/-- Embeds `Rect.__init__`: `x2 = x + w`, `y2 = y + h`. -/
def Rect.make (x y w h : Int) : Rect := ⟨x, y, x + w, y + h⟩

/-- Embeds `Rect.center` (line 54); Python `//` is floor division. -/
def Rect.center (r : Rect) : Int × Int :=
  ((r.x1 + r.x2).fdiv 2, (r.y1 + r.y2).fdiv 2)

/-- Embeds `Rect.intersect` (lines 55-57): inclusive-bound overlap test. -/
def Rect.intersect (a b : Rect) : Bool :=
  decide (a.x1 ≤ b.x2) && decide (a.x2 ≥ b.x1) &&
  decide (a.y1 ≤ b.y2) && decide (a.y2 ≥ b.y1)

/-- Embeds the module constants of lines 19-23. -/
def MAP_WIDTH : Int := 40

/-- Map height constant (line 20). -/
def MAP_HEIGHT : Int := 30

/-- Maximum room size constant (line 21). -/
def ROOM_MAX_SIZE : Int := 10

/-- Minimum room size constant (line 22). -/
def ROOM_MIN_SIZE : Int := 6

/-- Maximum number of room placement attempts (line 23). -/
def MAX_ROOMS : Nat := 8

/-- Stairs color constant (line 34). -/
def COLOR_STAIRS : Int × Int × Int := (200, 200, 0)

/-- The tile grid `self.tiles`, as a total function on coordinates; the
source only ever indexes it inside the `width × height` window. -/
abbrev Grid := Int → Int → Tile

/-- Embeds the room-interior carving loop (lines 121-122): every tile with
`x1 < ix < x2` and `y1 < iy < y2` (i.e. `range(x1+1, x2)`) becomes
unblocked and sight-open. -/
def carveRoom (r : Rect) (t : Grid) : Grid :=
  fun ix iy =>
    if r.x1 < ix ∧ ix < r.x2 ∧ r.y1 < iy ∧ iy < r.y2 then
      { t ix iy with blocked := false, block_sight := false }
    else t ix iy

/-- Embeds a horizontal corridor carve (lines 127 and 131): row `y`, from
`min xa xb` to `max xa xb` inclusive. -/
def carveH (y xa xb : Int) (t : Grid) : Grid :=
  fun ix iy =>
    if iy = y ∧ min xa xb ≤ ix ∧ ix ≤ max xa xb then
      { t ix iy with blocked := false, block_sight := false }
    else t ix iy

/-- Embeds a vertical corridor carve (lines 128 and 130): column `x`, from
`min ya yb` to `max ya yb` inclusive. -/
def carveV (x ya yb : Int) (t : Grid) : Grid :=
  fun ix iy =>
    if ix = x ∧ min ya yb ≤ iy ∧ iy ≤ max ya yb then
      { t ix iy with blocked := false, block_sight := false }
    else t ix iy

/-- Ghost record of one carved corridor run, used only to state the
corridor invariant; the source does not store corridors. -/
inductive Seg where
  | horiz (y xa xb : Int)
  | vert (x ya yb : Int)
deriving DecidableEq

/-- Cell membership in a corridor run (the exact cells the carving loops
of lines 127-131 write). -/
def Seg.covers : Seg → Int → Int → Bool
  | .horiz y xa xb, ix, iy =>
      decide (iy = y) && decide (min xa xb ≤ ix) && decide (ix ≤ max xa xb)
  | .vert x ya yb, ix, iy =>
      decide (ix = x) && decide (min ya yb ≤ iy) && decide (iy ≤ max ya yb)

/-- Working state of `GameMap._create_rooms_and_corridors`: the tile grid,
the accepted-room list, the rng, plus the ghost corridor list. -/
structure GenState where
  tiles : Grid
  rooms : List Rect
  corridors : List Seg
  rng : Rng

/-- Carving-and-append half of an accepted room placement (lines 120-132):
carve the room interior, and when a previous room exists connect the two
centers with an L-shaped corridor whose orientation `random.choice` picks,
then append the room. -/
def genAccept (room : Rect) (tiles : Grid) (rooms : List Rect)
    (corridors : List Seg) (r4 : Rng) : GenState :=
  let t1 := carveRoom room tiles
  match rooms.getLast? with
  | none =>
      { tiles := t1, rooms := rooms ++ [room], corridors := corridors,
        rng := r4 }
  | some prev =>
      let px := prev.center.1
      let py := prev.center.2
      let cx := room.center.1
      let cy := room.center.2
      let b := (choice2 r4).1
      let r5 := (choice2 r4).2
      if b then
        { tiles := carveV cx py cy (carveH py px cx t1),
          rooms := rooms ++ [room],
          corridors := corridors ++ [Seg.horiz py px cx, Seg.vert cx py cy],
          rng := r5 }
      else
        { tiles := carveH cy px cx (carveV px py cy t1),
          rooms := rooms ++ [room],
          corridors := corridors ++ [Seg.vert px py cy, Seg.horiz cy px cx],
          rng := r5 }

/-- Embeds one iteration of the room placement loop (lines 114-132):
draw a candidate rectangle; skip it if it intersects any accepted room;
otherwise carve and append it via `genAccept`. -/
def genStep (width height : Int) (s : GenState) : GenState :=
  let w := (randint ROOM_MIN_SIZE ROOM_MAX_SIZE s.rng).1
  let r1 := (randint ROOM_MIN_SIZE ROOM_MAX_SIZE s.rng).2
  let h := (randint ROOM_MIN_SIZE ROOM_MAX_SIZE r1).1
  let r2 := (randint ROOM_MIN_SIZE ROOM_MAX_SIZE r1).2
  let x := (randint 0 (width - w - 1) r2).1
  let r3 := (randint 0 (width - w - 1) r2).2
  let y := (randint 0 (height - h - 1) r3).1
  let r4 := (randint 0 (height - h - 1) r3).2
  let room := Rect.make x y w h
  if s.rooms.any (fun o => room.intersect o) then
    { s with rng := r4 }
  else
    genAccept room s.tiles s.rooms s.corridors r4

/-- Runs the placement loop `for _ in range(maxRooms)` (line 114). -/
def genIter (width height : Int) : Nat → GenState → GenState
  | 0, s => s
  | n + 1, s => genIter width height n (genStep width height s)

/-- Initial generation state: every tile starts as `Tile(True)` (line 107),
no rooms, no corridors. -/
def initGenState (r : Rng) : GenState :=
  { tiles := fun _ _ => Tile.make true, rooms := [], corridors := [], rng := r }

/-- Embeds `GameMap._create_rooms_and_corridors` (lines 113-132). -/
def create_rooms_and_corridors (width height : Int) (maxRooms : Nat) (r : Rng) :
    GenState :=
  genIter width height maxRooms (initGenState r)

/-- Embeds the inner potion loop of `GameMap._place_items` for one room
(lines 135-137): 0-2 potions at uniform interior positions. -/
def placeItemsRoom (room : Rect) (acc : List Item × Rng) : List Item × Rng :=
  let n := (randint 0 2 acc.2).1
  let r1 := (randint 0 2 acc.2).2
  (List.range n.toNat).foldl
    (fun (p : List Item × Rng) _ =>
      let ix := (randint (room.x1 + 1) (room.x2 - 1) p.2).1
      let ra := (randint (room.x1 + 1) (room.x2 - 1) p.2).2
      let iy := (randint (room.y1 + 1) (room.y2 - 1) ra).1
      let rb := (randint (room.y1 + 1) (room.y2 - 1) ra).2
      (p.1 ++ [⟨ix, iy, "Health Potion", "!", (255, 0, 0), some "heal"⟩], rb))
    (acc.1, r1)

/-- Embeds `GameMap._place_items` (lines 133-137). -/
def place_items (rooms : List Rect) (r : Rng) : List Item × Rng :=
  rooms.foldl (fun acc room => placeItemsRoom room acc) ([], r)

/-- Python exception kinds reachable in the modelled fragment: `IndexError`
from indexing an empty list, versus a descriptive `ValueError` (which the
source never raises). -/
inductive PyError where
  | indexError
  | valueError
deriving DecidableEq

/-- Embeds the floor data of class `GameMap` (lines 104-112). -/
structure GameMap where
  width : Int
  height : Int
  tiles : Grid
  rooms : List Rect
  items : List Item
  stairs : Item

/-- Embeds `GameMap.__init__` (lines 105-112): generate rooms and corridors,
place potions, then index `self.rooms[-1]` for the stairs position — on an
empty room list this is Python's `IndexError`, not a descriptive error. -/
def makeGameMap (width height : Int) (maxRooms : Nat) (r : Rng) :
    Except PyError (GameMap × Rng) :=
  let s := create_rooms_and_corridors width height maxRooms r
  let its := (place_items s.rooms s.rng).1
  let r1 := (place_items s.rooms s.rng).2
  match s.rooms.getLast? with
  | none => .error .indexError
  | some last =>
      let stairs : Item :=
        ⟨last.center.1, last.center.2, "Stairs", ">", COLOR_STAIRS, some "stairs"⟩
      .ok ({ width := width, height := height, tiles := s.tiles,
             rooms := s.rooms, items := its ++ [stairs], stairs := stairs }, r1)

/-- Embeds `GameMap.is_blocked` (lines 138-140): out-of-window coordinates
are reported blocked before the tile array is ever consulted. -/
def GameMap.is_blocked (m : GameMap) (x y : Int) : Bool :=
  if x < 0 ∨ x ≥ m.width ∨ y < 0 ∨ y ≥ m.height then true
  else (m.tiles x y).blocked

/-- Embeds class `Actor` (lines 60-80).  `xp_yield` is `none` on the base
class and `some` on monsters, mirroring `getattr(target, ..., 0)`;
`is_player` embeds Python object identity with `self.player` (the identity
test `a is not self.player` of line 192), true exactly for the one
player-controlled actor. -/
structure Actor where
  x : Int
  y : Int
  char : String
  color : Int × Int × Int
  name : String
  max_hp : Int
  hp : Int
  attack : Int
  defense : Int
  speed : Int
  level : Int
  xp : Int
  stat_points : Int
  inventory : List Item
  xp_yield : Option Int
  is_player : Bool
deriving DecidableEq

/-- Embeds `Actor.__init__` (lines 61-66). -/
def Actor.make (x y : Int) (char : String) (color : Int × Int × Int)
    (name : String) (hp attack defense speed : Int) : Actor :=
  { x := x, y := y, char := char, color := color, name := name,
    max_hp := hp, hp := hp, attack := attack, defense := defense,
    speed := speed, level := 1, xp := 0, stat_points := 0, inventory := [],
    xp_yield := none, is_player := false }

/-- Embeds `Actor.take_damage` (line 69): subtract `amount` from hp (no
clamping) and report whether hp is now `≤ 0`. -/
def Actor.take_damage (a : Actor) (amount : Int) : Actor × Bool :=
  let a1 := { a with hp := a.hp - amount }
  (a1, decide (a1.hp ≤ 0))

/-- Embeds `Actor.level_up` (line 73). -/
def Actor.level_up (a : Actor) : Actor :=
  { a with level := a.level + 1, stat_points := a.stat_points + 5 }

/-- Embeds `Actor.gain_xp` (lines 70-72) exactly as written in the source:
a single `if` against `level * 50`, not a `while` loop. -/
def Actor.gain_xp (a : Actor) (amount : Int) : Actor :=
  let a1 := { a with xp := a.xp + amount }
  let thresh := a1.level * 50
  if a1.xp ≥ thresh then ({ a1 with xp := a1.xp - thresh }).level_up else a1

/-- Embeds `Actor.move` (lines 67-68): step only when the destination is
not blocked. -/
def Actor.move (a : Actor) (dx dy : Int) (m : GameMap) : Actor :=
  if m.is_blocked (a.x + dx) (a.y + dy) = false then
    { a with x := a.x + dx, y := a.y + dy }
  else a

/-- Result of one attack exchange: the value `(dmg, died)` returned by the
source plus the mutated attacker, defender, and rng. -/
structure AttackResult where
  dmg : Int
  died : Bool
  attacker : Actor
  target : Actor
  rng : Rng

/-- Embeds `Actor.attack_target` (lines 74-80): hit chance
`speed / (speed + target.speed)`; on hit, damage
`max(1, randint(1, attack) - target.defense)`; on miss, damage 0;
`take_damage` is invoked with the damage in both cases, and a kill feeds
`xp_yield` (default 0) to the attacker. -/
def Actor.attack_target (a t : Actor) (r : Rng) : AttackResult :=
  let chance : ℚ := (a.speed : ℚ) / ((a.speed : ℚ) + (t.speed : ℚ))
  let u := (randFloat r).1
  let r1 := (randFloat r).2
  let dmg : Int :=
    if u < chance then max 1 ((randint 1 a.attack r1).1 - t.defense) else 0
  let r2 := if u < chance then (randint 1 a.attack r1).2 else r1
  let t1 := (t.take_damage dmg).1
  let died := (t.take_damage dmg).2
  let a1 := if died then a.gain_xp (t.xp_yield.getD 0) else a
  ⟨dmg, died, a1, t1, r2⟩

/-- Embeds `Warrior.__init__` (lines 82-83); `is_player` marks the
player-controlled object. -/
def Warrior.make (x y : Int) : Actor :=
  { Actor.make x y "@" (255, 255, 255) "Warrior" 30 5 3 2 with is_player := true }

/-- Embeds `Rogue.__init__` (lines 84-85). -/
def Rogue.make (x y : Int) : Actor :=
  { Actor.make x y "@" (0, 255, 0) "Rogue" 20 7 2 3 with is_player := true }

/-- Embeds `Mage.__init__` (lines 86-87). -/
def Mage.make (x y : Int) : Actor :=
  { Actor.make x y "@" (0, 0, 255) "Mage" 18 9 1 2 with is_player := true }

/-- Embeds a row of the `monster_templates` table (lines 95-101). -/
structure MonsterTemplate where
  name : String
  char : String
  color : Int × Int × Int
  hp : Int
  attack : Int
  defense : Int
  speed : Int
  xp : Int
deriving DecidableEq

/-- Embeds the `monster_templates` table (lines 95-101). -/
def monster_templates : List MonsterTemplate :=
  [⟨"Rat", "r", (150, 150, 150), 10, 3, 0, 2, 10⟩,
   ⟨"Bat", "b", (200, 200, 200), 8, 4, 0, 3, 12⟩,
   ⟨"Goblin", "g", (0, 150, 0), 16, 5, 1, 2, 20⟩,
   ⟨"Skeleton", "s", (100, 100, 100), 20, 6, 2, 1, 25⟩,
   ⟨"Ghost", "G", (180, 180, 255), 12, 7, 0, 4, 30⟩]

/-- Embeds `Monster.__init__` (lines 89-93): template stats plus
`xp_yield`. -/
def Monster.make (x y : Int) (tmpl : MonsterTemplate) : Actor :=
  { Actor.make x y tmpl.char tmpl.color tmpl.name tmpl.hp tmpl.attack
      tmpl.defense tmpl.speed with xp_yield := some tmpl.xp }

/-- Embeds `random.choice(monster_templates)` (line 173): one draw selects
a template. -/
def choiceTemplate (r : Rng) : MonsterTemplate × Rng :=
  (monster_templates.getD (r.next.1.natAbs % monster_templates.length)
    ⟨"Rat", "r", (150, 150, 150), 10, 3, 0, 2, 10⟩, r.next.2)

/-- Embeds the turn-relevant state of class `Game`: the floor and the actor
list.  In the source `self.actors = [self.player] + monsters` with the
player aliased at the head (line 167); the embedding keeps the player slot
and the monster tail explicitly. -/
structure Game where
  game_map : GameMap
  player : Actor
  monsters : List Actor

/-- The actor list `self.actors`: the player at the head followed by the
monsters, as set up by `next_floor` (line 167). -/
def Game.actorsList (g : Game) : List Actor := g.player :: g.monsters

/-- Embeds one monster spawn (lines 172-173): position drawn uniformly in
the room interior, template drawn from the table. -/
def spawnOne (room : Rect) (p : List Actor × Rng) : List Actor × Rng :=
  let mx := (randint (room.x1 + 1) (room.x2 - 1) p.2).1
  let ra := (randint (room.x1 + 1) (room.x2 - 1) p.2).2
  let my := (randint (room.y1 + 1) (room.y2 - 1) ra).1
  let rb := (randint (room.y1 + 1) (room.y2 - 1) ra).2
  (p.1 ++ [Monster.make mx my (choiceTemplate rb).1], (choiceTemplate rb).2)

/-- Embeds the inner spawn loop of `Game._spawn_monsters` for one room
(lines 171-173). -/
def spawnRoom (room : Rect) (acc : List Actor × Rng) : List Actor × Rng :=
  let n := (randint 0 3 acc.2).1
  let r1 := (randint 0 3 acc.2).2
  (List.range n.toNat).foldl (fun p _ => spawnOne room p) (acc.1, r1)

/-- Embeds `Game._spawn_monsters` (lines 169-173): every room except the
first gets 0-3 monsters. -/
def spawn_monsters (m : GameMap) (r : Rng) : List Actor × Rng :=
  (m.rooms.drop 1).foldl (fun acc room => spawnRoom room acc) ([], r)

/-- Embeds the body of `Game.next_floor` (lines 155-167) after the new
`GameMap` is available: save `(inventory, level, xp)`, index `rooms[0]`
for the respawn position (IndexError on an empty list), reposition the
player, restore the saved triple, rebuild the actor list.  `prev = none`
is the first call, where a fresh `Warrior` is created. -/
def next_floor_with_map (prev : Option Actor) (m : GameMap) (r : Rng) :
    Except PyError (Game × Rng) :=
  let saved := match prev with
    | some p => (p.inventory, p.level, p.xp)
    | none => (([] : List Item), (1 : Int), (0 : Int))
  match m.rooms.head? with
  | none => .error .indexError
  | some r0 =>
      let cx := r0.center.1
      let cy := r0.center.2
      let p0 := match prev with
        | some p => p
        | none => Warrior.make cx cy
      let p1 :=
        { p0 with
          x := cx
          y := cy
          inventory := saved.1
          level := saved.2.1
          xp := saved.2.2 }
      .ok ({ game_map := m, player := p1,
             monsters := (spawn_monsters m r).1 }, (spawn_monsters m r).2)

/-- Embeds `Game.next_floor` (lines 155-167): regenerate the map with the
module constants, then rebuild the session state around it. -/
def next_floor (prev : Option Actor) (r : Rng) : Except PyError (Game × Rng) :=
  match makeGameMap MAP_WIDTH MAP_HEIGHT MAX_ROOMS r with
  | .error e => .error e
  | .ok (m, r1) => next_floor_with_map prev m r1

/-- Embeds the combat loop of `Game._combat_and_items` (lines 190-201):
scan the actor list in order for the first non-player actor at the
player's position; resolve the player's attack; on a kill remove the
monster and stop, otherwise let it counter-attack and stop. -/
def combat_scan (p : Actor) : List Actor → Rng → Actor × List Actor × Rng
  | [], r => (p, [], r)
  | a :: rest, r =>
    if a.is_player = false ∧ a.x = p.x ∧ a.y = p.y then
      let res := p.attack_target a r
      if res.died then (res.attacker, rest, res.rng)
      else
        let res2 := res.target.attack_target res.attacker res.rng
        (res2.target, res2.attacker :: rest, res2.rng)
    else
      let t := combat_scan p rest r
      (t.1, a :: t.2.1, t.2.2)

/-- The combat half of `Game._combat_and_items` (lines 190-201), lifted to
the game state. -/
def Game.combat_step (g : Game) (r : Rng) : Game × Rng :=
  let t := combat_scan g.player g.monsters r
  ({ g with player := t.1, monsters := t.2.1 }, t.2.2)

/-- Embeds the item scan of lines 203-204: the first floor item at the
player's position, if any. -/
def items_scan (p : Actor) : List Item → Option Item
  | [] => none
  | it :: rest => if it.x = p.x ∧ it.y = p.y then some it else items_scan p rest

/-- Embeds the item/stairs half of `Game._combat_and_items` (lines
202-208): heal caps hp at `max_hp`; stairs trigger `next_floor` and return
at once (the stairs item is not picked up); any other found item (healed-
from or not) is appended to the inventory and removed from the floor. -/
def Game.items_step (g : Game) (r : Rng) : Except PyError (Game × Rng) :=
  match items_scan g.player g.game_map.items with
  | none => .ok (g, r)
  | some it =>
      if it.effect = some "stairs" then
        next_floor (some g.player) r
      else
        let p1 := if it.effect = some "heal" then
            { g.player with hp := min g.player.max_hp (g.player.hp + 10) }
          else g.player
        let p2 := { p1 with inventory := p1.inventory ++ [it] }
        let m1 := { g.game_map with items := g.game_map.items.erase it }
        .ok ({ g with player := p2, game_map := m1 }, r)

/-- Embeds `Game._combat_and_items` (lines 189-208): the combat loop runs
first, then the item/stairs loop runs on the resulting state — the source
has no guard that skips it after a combat. -/
def Game.combat_and_items (g : Game) (r : Rng) : Except PyError (Game × Rng) :=
  (g.combat_step r).1.items_step (g.combat_step r).2

/-- Embeds the movement part of `Game.handle_keys` (line 184): the player
moves, then the turn resolves. -/
def Game.move_player (g : Game) (dx dy : Int) : Game :=
  { g with player := g.player.move dx dy g.game_map }
-- Concrete fixtures and claim theorems.
def rngZero : Rng := ⟨fun _ => 0, 0⟩

def stairsAt (x y : Int) : Item := ⟨x, y, "Stairs", ">", COLOR_STAIRS, some "stairs"⟩

/-- Small all-open test floor used by witnesses. -/
def mapOpen : GameMap :=
  { width := 2, height := 2, tiles := fun _ _ => Tile.make false,
    rooms := [], items := [], stairs := stairsAt 5 5 }

/-- C1: the source's `gain_xp` checks the level threshold with a single
`if`, not a loop: one call of `gain_xp 150` from a fresh level-1 actor
stops at level 2 with leftover xp 100, which still meets the new
threshold `2 * 50`; splitting the same total into `75 + 75` reaches
level 3 with leftover 0.  Total-XP accounting is therefore not
split-invariant, contradicting the spec's required `while` semantics. -/
theorem c1_gain_xp_single_branch_bug :
    ((Warrior.make 0 0).gain_xp 150).level = 2 ∧
    ((Warrior.make 0 0).gain_xp 150).xp = 100 ∧
    ((Warrior.make 0 0).gain_xp 150).xp ≥
      ((Warrior.make 0 0).gain_xp 150).level * 50 ∧
    (((Warrior.make 0 0).gain_xp 75).gain_xp 75).level = 3 ∧
    (((Warrior.make 0 0).gain_xp 75).gain_xp 75).xp = 0 := by
  decide

/-- C8: `take_damage` subtracts exactly `amount` from hp with no clamping
at zero, and reports death exactly when the resulting hp is `≤ 0`. -/
theorem c8_take_damage_exact (a : Actor) (amount : Int) (h : 0 ≤ amount) :
    (a.take_damage amount).1.hp = a.hp - amount ∧
    ((a.take_damage amount).2 = true ↔ (a.take_damage amount).1.hp ≤ 0) := by
  refine ⟨rfl, ?_⟩
  simp [Actor.take_damage]

/-- Witness for C8 at a concrete input: 7 damage to a 5-hp rat leaves hp
`-2` (negative, unclamped) and reports death. -/
theorem c8_take_damage_exact_witness :
    (0 : Int) ≤ 7 ∧
    (((Monster.make 0 0 ⟨"Rat", "r", (150, 150, 150), 5, 3, 0, 2, 10⟩).take_damage 7).1.hp =
        (Monster.make 0 0 ⟨"Rat", "r", (150, 150, 150), 5, 3, 0, 2, 10⟩).hp - 7 ∧
      (((Monster.make 0 0 ⟨"Rat", "r", (150, 150, 150), 5, 3, 0, 2, 10⟩).take_damage 7).2 = true ↔
        ((Monster.make 0 0 ⟨"Rat", "r", (150, 150, 150), 5, 3, 0, 2, 10⟩).take_damage 7).1.hp ≤ 0)) :=
  ⟨by decide,
   c8_take_damage_exact (Monster.make 0 0 ⟨"Rat", "r", (150, 150, 150), 5, 3, 0, 2, 10⟩) 7 (by decide)⟩

/-- C9: `move` steps to `(x+dx, y+dy)` exactly when that destination is
reported unblocked, no-ops when it is blocked, and on an out-of-bounds
destination no-ops with the bounds guard answering `blocked` no matter
what the tile grid holds (the grid is never consulted). -/
theorem c9_move_guarded (a : Actor) (dx dy : Int) (m : GameMap) :
    (m.is_blocked (a.x + dx) (a.y + dy) = false →
      a.move dx dy m = { a with x := a.x + dx, y := a.y + dy }) ∧
    (m.is_blocked (a.x + dx) (a.y + dy) = true → a.move dx dy m = a) ∧
    ((a.x + dx < 0 ∨ a.x + dx ≥ m.width ∨ a.y + dy < 0 ∨ a.y + dy ≥ m.height) →
      a.move dx dy m = a ∧
      ∀ t : Grid,
        GameMap.is_blocked { m with tiles := t } (a.x + dx) (a.y + dy) = true) := by
  refine ⟨fun h => ?_, fun h => ?_, fun h => ⟨?_, fun t => ?_⟩⟩
  · simp [Actor.move, h]
  · simp [Actor.move, h]
  · have hb : m.is_blocked (a.x + dx) (a.y + dy) = true := by
      simp only [GameMap.is_blocked]
      rw [if_pos h]
    simp [Actor.move, hb]
  · simp only [GameMap.is_blocked]
    rw [if_pos]
    simpa using h

/-- Witness for C9 at concrete inputs on a 2-by-2 open floor: stepping
left from `(0,0)` is out of bounds and no-ops, stepping right lands on
`(1,0)`. -/
theorem c9_move_guarded_witness :
    ((Warrior.make 0 0).move (-1) 0 mapOpen = Warrior.make 0 0) ∧
    ((Warrior.make 0 0).move 1 0 mapOpen =
      { Warrior.make 0 0 with x := 1, y := 0 }) := by
  constructor
  · exact ((c9_move_guarded (Warrior.make 0 0) (-1) 0 mapOpen).2.2 (by decide)).1
  · exact (c9_move_guarded (Warrior.make 0 0) 1 0 mapOpen).1 (by decide)
-- batch2: generation lemmas, C6
/-- The inclusive-bound intersection test is symmetric. -/
theorem Rect.intersect_comm (a b : Rect) : a.intersect b = b.intersect a := by
  unfold Rect.intersect
  rw [Bool.eq_iff_iff]
  simp only [Bool.and_eq_true, decide_eq_true_eq, ge_iff_le]
  tauto

/-- Pairwise non-intersection of an accepted-room list. -/
def roomsOk (l : List Rect) : Prop :=
  l.Pairwise (fun a b => a.intersect b = false)

theorem genAccept_rooms (room : Rect) (t : Grid) (rs : List Rect)
    (cs : List Seg) (r4 : Rng) :
    (genAccept room t rs cs r4).rooms = rs ++ [room] := by
  unfold genAccept
  split
  · rfl
  · dsimp only
    split <;> rfl

theorem genAccept_corridors (room : Rect) (t : Grid) (rs : List Rect)
    (cs : List Seg) (r4 : Rng) :
    ∃ tail, (genAccept room t rs cs r4).corridors = cs ++ tail := by
  unfold genAccept
  split
  · exact ⟨[], by simp⟩
  · dsimp only
    split
    · exact ⟨_, rfl⟩
    · exact ⟨_, rfl⟩

/-- One placement attempt either rejects the candidate (room list
unchanged) or appends a candidate that intersects no accepted room. -/
theorem genStep_rooms (w h : Int) (s : GenState) :
    (genStep w h s).rooms = s.rooms ∨
    ∃ room, (genStep w h s).rooms = s.rooms ++ [room] ∧
      s.rooms.any (fun o => room.intersect o) = false := by
  unfold genStep
  dsimp only
  split
  · exact Or.inl rfl
  · rename_i hneg
    right
    refine ⟨_, genAccept_rooms _ _ _ _ _, ?_⟩
    simpa using hneg

theorem roomsOk_append (l : List Rect) (r : Rect) (hl : roomsOk l)
    (h : l.any (fun o => r.intersect o) = false) : roomsOk (l ++ [r]) := by
  rw [roomsOk, List.pairwise_append]
  refine ⟨hl, List.pairwise_singleton _ _, ?_⟩
  intro a ha b hb
  rw [List.mem_singleton] at hb
  subst hb
  rw [List.any_eq_false] at h
  have := h a ha
  rw [Rect.intersect_comm]
  simpa using this

theorem genStep_roomsOk (w h : Int) (s : GenState) (hs : roomsOk s.rooms) :
    roomsOk (genStep w h s).rooms := by
  rcases genStep_rooms w h s with heq | ⟨room, heq, hint⟩
  · rwa [heq]
  · rw [heq]
    exact roomsOk_append _ _ hs hint

theorem genIter_roomsOk (w h : Int) (n : Nat) (s : GenState)
    (hs : roomsOk s.rooms) : roomsOk (genIter w h n s).rooms := by
  induction n generalizing s with
  | zero => exact hs
  | succ m ih => exact ih _ (genStep_roomsOk w h s hs)

/-- C6: in every generated floor, no two accepted rooms intersect — the
room list is pairwise non-intersecting under the inclusive-bound test,
so for any two distinct accepted rooms the test returns false. -/
theorem c6_rooms_pairwise_disjoint (w h : Int) (n : Nat) (r : Rng) :
    ((create_rooms_and_corridors w h n r).rooms).Pairwise
      (fun a b => a.intersect b = false) ∧
    ∀ r1 ∈ (create_rooms_and_corridors w h n r).rooms,
      ∀ r2 ∈ (create_rooms_and_corridors w h n r).rooms,
        r1 ≠ r2 → r1.intersect r2 = false := by
  have hp : roomsOk (create_rooms_and_corridors w h n r).rooms :=
    genIter_roomsOk w h n (initGenState r) (List.Pairwise.nil)
  refine ⟨hp, fun r1 h1 r2 h2 hne => ?_⟩
  have hsymm : Symmetric (fun a b : Rect => a.intersect b = false) := by
    intro a b hab
    rwa [Rect.intersect_comm]
  exact List.Pairwise.forall hsymm hp h1 h2 hne
-- batch3: C3 nonempty + counterexample
theorem genStep_rooms_nonempty (w h : Int) (s : GenState)
    (hne : s.rooms ≠ []) : (genStep w h s).rooms ≠ [] := by
  rcases genStep_rooms w h s with heq | ⟨room, heq, _⟩
  · rw [heq]; exact hne
  · rw [heq]; simp

theorem genStep_rooms_nonempty_of_empty (w h : Int) (s : GenState)
    (h0 : s.rooms = []) : (genStep w h s).rooms ≠ [] := by
  unfold genStep
  dsimp only
  rw [h0]
  simp only [List.any_nil, Bool.false_eq_true, if_false]
  rw [genAccept_rooms]
  simp

theorem genIter_rooms_nonempty (w h : Int) (n : Nat) (s : GenState)
    (hne : s.rooms ≠ []) : (genIter w h n s).rooms ≠ [] := by
  induction n generalizing s with
  | zero => exact hne
  | succ m ih => exact ih _ (genStep_rooms_nonempty w h s hne)

/-- With at least one placement attempt, the very first candidate room is
always accepted (nothing can intersect an empty room list), so the
accepted-room list of a generated floor is never empty. -/
theorem create_rooms_nonempty (w h : Int) (n : Nat) (hn : 1 ≤ n) (r : Rng) :
    (create_rooms_and_corridors w h n r).rooms ≠ [] := by
  cases n with
  | zero => omega
  | succ m =>
      show (genIter w h (m + 1) (initGenState r)).rooms ≠ []
      rw [genIter]
      exact genIter_rooms_nonempty w h m _
        (genStep_rooms_nonempty_of_empty w h (initGenState r) rfl)

/-- C3 amended half: under the shipped constants (`MAX_ROOMS = 8`) floor
creation never reaches the zero-rooms case — `GameMap.__init__` always
succeeds, for every random stream. -/
theorem c3_floor_creation_ok (r : Rng) :
    ∃ v, makeGameMap MAP_WIDTH MAP_HEIGHT MAX_ROOMS r = .ok v := by
  unfold makeGameMap
  dsimp only
  have hne : (create_rooms_and_corridors MAP_WIDTH MAP_HEIGHT MAX_ROOMS r).rooms ≠ [] :=
    create_rooms_nonempty MAP_WIDTH MAP_HEIGHT MAX_ROOMS (by norm_num [MAX_ROOMS]) r
  cases hlast : (create_rooms_and_corridors MAP_WIDTH MAP_HEIGHT MAX_ROOMS r).rooms.getLast? with
  | none => exact absurd (List.getLast?_eq_none_iff.mp hlast) hne
  | some last => exact ⟨_, rfl⟩

/-- C3 counterexample: if the placement loop runs zero times so that zero
rooms are accepted, `GameMap.__init__` stops with the `IndexError` raised
by indexing `rooms[-1]` — an out-of-bounds indexing fault, not a
descriptive precondition-violation error. -/
theorem c3_zero_rooms_index_fault :
    (create_rooms_and_corridors 40 30 0 rngZero).rooms = [] ∧
    makeGameMap 40 30 0 rngZero = .error .indexError := by
  constructor
  · rfl
  · rfl
-- batch4: C7 carving invariant
/-- Room-interior tiles (exclusive of the border) are unblocked in grid `t`. -/
def interiorUnblocked (t : Grid) (r : Rect) : Prop :=
  ∀ ix iy, r.x1 < ix → ix < r.x2 → r.y1 < iy → iy < r.y2 →
    (t ix iy).blocked = false

/-- Every cell of a corridor run is unblocked in grid `t`. -/
def segUnblocked (t : Grid) (seg : Seg) : Prop :=
  ∀ ix iy, seg.covers ix iy = true → (t ix iy).blocked = false

theorem carveRoom_mono {r : Rect} {t : Grid} {ix iy : Int}
    (hb : (t ix iy).blocked = false) : (carveRoom r t ix iy).blocked = false := by
  unfold carveRoom
  split
  · rfl
  · exact hb

theorem carveH_mono {y xa xb : Int} {t : Grid} {ix iy : Int}
    (hb : (t ix iy).blocked = false) : (carveH y xa xb t ix iy).blocked = false := by
  unfold carveH
  split
  · rfl
  · exact hb

theorem carveV_mono {x ya yb : Int} {t : Grid} {ix iy : Int}
    (hb : (t ix iy).blocked = false) : (carveV x ya yb t ix iy).blocked = false := by
  unfold carveV
  split
  · rfl
  · exact hb

theorem carveRoom_sets (r : Rect) (t : Grid) (ix iy : Int)
    (h1 : r.x1 < ix) (h2 : ix < r.x2) (h3 : r.y1 < iy) (h4 : iy < r.y2) :
    (carveRoom r t ix iy).blocked = false := by
  unfold carveRoom
  rw [if_pos ⟨h1, h2, h3, h4⟩]

theorem carveH_sets {y xa xb : Int} {t : Grid} {ix iy : Int}
    (h : (Seg.horiz y xa xb).covers ix iy = true) :
    (carveH y xa xb t ix iy).blocked = false := by
  simp only [Seg.covers, Bool.and_eq_true, decide_eq_true_eq] at h
  unfold carveH
  rw [if_pos ⟨h.1.1, h.1.2, h.2⟩]

theorem carveV_sets {x ya yb : Int} {t : Grid} {ix iy : Int}
    (h : (Seg.vert x ya yb).covers ix iy = true) :
    (carveV x ya yb t ix iy).blocked = false := by
  simp only [Seg.covers, Bool.and_eq_true, decide_eq_true_eq] at h
  unfold carveV
  rw [if_pos ⟨h.1.1, h.1.2, h.2⟩]

/-- Invariant carried through the placement loop: every accepted room
interior and every carved corridor cell is unblocked in the current grid. -/
def genInv (s : GenState) : Prop :=
  (∀ r ∈ s.rooms, interiorUnblocked s.tiles r) ∧
  (∀ seg ∈ s.corridors, segUnblocked s.tiles seg)

theorem interiorUnblocked_carveRoom_self (room : Rect) (t : Grid) :
    interiorUnblocked (carveRoom room t) room :=
  fun ix iy h1 h2 h3 h4 => carveRoom_sets room t ix iy h1 h2 h3 h4

theorem genAccept_inv (room : Rect) (t : Grid) (rs : List Rect)
    (cs : List Seg) (r4 : Rng)
    (hr : ∀ r ∈ rs, interiorUnblocked t r)
    (hc : ∀ seg ∈ cs, segUnblocked t seg) :
    genInv (genAccept room t rs cs r4) := by
  unfold genAccept
  split
  · refine ⟨fun r hmem => ?_, fun seg hmem => ?_⟩
    · rcases List.mem_append.mp hmem with hold | hnew
      · exact fun ix iy h1 h2 h3 h4 =>
          carveRoom_mono (hr r hold ix iy h1 h2 h3 h4)
      · rw [List.mem_singleton] at hnew
        subst hnew
        exact interiorUnblocked_carveRoom_self r t
    · exact fun ix iy hcov => carveRoom_mono (hc seg hmem ix iy hcov)
  · rename_i prev hprev
    dsimp only
    split
    · refine ⟨fun r hmem => ?_, fun seg hmem => ?_⟩
      · rcases List.mem_append.mp hmem with hold | hnew
        · exact fun ix iy h1 h2 h3 h4 =>
            carveV_mono (carveH_mono (carveRoom_mono (hr r hold ix iy h1 h2 h3 h4)))
        · rw [List.mem_singleton] at hnew
          subst hnew
          exact fun ix iy h1 h2 h3 h4 =>
            carveV_mono (carveH_mono (carveRoom_sets r t ix iy h1 h2 h3 h4))
      · rcases List.mem_append.mp hmem with hold | hnew
        · exact fun ix iy hcov =>
            carveV_mono (carveH_mono (carveRoom_mono (hc seg hold ix iy hcov)))
        · rcases List.mem_cons.mp hnew with h1 | h2
          · subst h1
            exact fun ix iy hcov =>
              carveV_mono (carveH_sets hcov)
          · rw [List.mem_singleton] at h2
            subst h2
            exact fun ix iy hcov => carveV_sets hcov
    · refine ⟨fun r hmem => ?_, fun seg hmem => ?_⟩
      · rcases List.mem_append.mp hmem with hold | hnew
        · exact fun ix iy h1 h2 h3 h4 =>
            carveH_mono (carveV_mono (carveRoom_mono (hr r hold ix iy h1 h2 h3 h4)))
        · rw [List.mem_singleton] at hnew
          subst hnew
          exact fun ix iy h1 h2 h3 h4 =>
            carveH_mono (carveV_mono (carveRoom_sets r t ix iy h1 h2 h3 h4))
      · rcases List.mem_append.mp hmem with hold | hnew
        · exact fun ix iy hcov =>
            carveH_mono (carveV_mono (carveRoom_mono (hc seg hold ix iy hcov)))
        · rcases List.mem_cons.mp hnew with h1 | h2
          · subst h1
            exact fun ix iy hcov =>
              carveH_mono (carveV_sets hcov)
          · rw [List.mem_singleton] at h2
            subst h2
            exact fun ix iy hcov => carveH_sets hcov

theorem genStep_inv (w h : Int) (s : GenState) (hs : genInv s) :
    genInv (genStep w h s) := by
  unfold genStep
  dsimp only
  split
  · exact hs
  · exact genAccept_inv _ _ _ _ _ hs.1 hs.2

theorem genIter_inv (w h : Int) (n : Nat) (s : GenState) (hs : genInv s) :
    genInv (genIter w h n s) := by
  induction n generalizing s with
  | zero => exact hs
  | succ m ih => exact ih _ (genStep_inv w h s hs)

/-- C7: at the end of generation, every tile strictly inside an accepted
room and every cell of every carved L-corridor run is unblocked. -/
theorem c7_carved_cells_unblocked (w h : Int) (n : Nat) (r : Rng) :
    (∀ room ∈ (create_rooms_and_corridors w h n r).rooms,
      ∀ ix iy, room.x1 < ix → ix < room.x2 → room.y1 < iy → iy < room.y2 →
        ((create_rooms_and_corridors w h n r).tiles ix iy).blocked = false) ∧
    (∀ seg ∈ (create_rooms_and_corridors w h n r).corridors,
      ∀ ix iy, seg.covers ix iy = true →
        ((create_rooms_and_corridors w h n r).tiles ix iy).blocked = false) := by
  have hinv : genInv (genIter w h n (initGenState r)) :=
    genIter_inv w h n (initGenState r) ⟨by simp [initGenState], by simp [initGenState]⟩
  exact ⟨fun room hm ix iy h1 h2 h3 h4 => hinv.1 room hm ix iy h1 h2 h3 h4,
         fun seg hm ix iy hcov => hinv.2 seg hm ix iy hcov⟩

/-- Demo stream for the C7 witness: two accepted rooms joined by a
horizontal-then-vertical corridor. -/
def rngDemo : Rng := ⟨fun n => if n = 6 then 20 else 0, 0⟩

/-- Witness for C7 on a concrete two-room floor: an interior cell of the
first room and a mid-corridor cell are both unblocked. -/
theorem c7_carved_cells_unblocked_witness :
    (⟨0, 0, 6, 6⟩ : Rect) ∈ (create_rooms_and_corridors 40 30 2 rngDemo).rooms ∧
    ((create_rooms_and_corridors 40 30 2 rngDemo).tiles 1 1).blocked = false ∧
    Seg.horiz 3 3 23 ∈ (create_rooms_and_corridors 40 30 2 rngDemo).corridors ∧
    ((create_rooms_and_corridors 40 30 2 rngDemo).tiles 10 3).blocked = false := by
  have h := c7_carved_cells_unblocked 40 30 2 rngDemo
  refine ⟨by decide, ?_, by decide, ?_⟩
  · exact h.1 ⟨0, 0, 6, 6⟩ (by decide) 1 1 (by decide) (by decide) (by decide) (by decide)
  · exact h.2 (Seg.horiz 3 3 23) (by decide) 10 3 (by decide)
-- batch5: attack_target helpers + C5
/-- Evaluation of `attack_target` on a missed roll: damage 0, yet
`take_damage 0` still runs on the defender. -/
theorem attack_target_miss (a t : Actor) (r : Rng)
    (hu : ¬ ((randFloat r).1 < (a.speed : ℚ) / ((a.speed : ℚ) + (t.speed : ℚ)))) :
    a.attack_target t r =
      ⟨0, (t.take_damage 0).2,
       if (t.take_damage 0).2 then a.gain_xp (t.xp_yield.getD 0) else a,
       (t.take_damage 0).1, (randFloat r).2⟩ := by
  unfold Actor.attack_target
  dsimp only
  rw [if_neg hu, if_neg hu]

/-- Evaluation of `attack_target` on a successful roll: damage
`max 1 (randint(1, attack) - defense)`. -/
theorem attack_target_hit (a t : Actor) (r : Rng)
    (hu : (randFloat r).1 < (a.speed : ℚ) / ((a.speed : ℚ) + (t.speed : ℚ))) :
    a.attack_target t r =
      ⟨max 1 ((randint 1 a.attack (randFloat r).2).1 - t.defense),
       (t.take_damage (max 1 ((randint 1 a.attack (randFloat r).2).1 - t.defense))).2,
       if (t.take_damage (max 1 ((randint 1 a.attack (randFloat r).2).1 - t.defense))).2
         then a.gain_xp (t.xp_yield.getD 0) else a,
       (t.take_damage (max 1 ((randint 1 a.attack (randFloat r).2).1 - t.defense))).1,
       (randint 1 a.attack (randFloat r).2).2⟩ := by
  unfold Actor.attack_target
  dsimp only
  rw [if_pos hu, if_pos hu]

/-- C5: on a hit the damage is exactly
`max 1 (randint(1, attack) - defense)` and hence at least 1 whatever the
defense; on a miss the damage is exactly 0; in both cases `take_damage`
runs on the defender with that damage, so death is reported exactly when
`hp - dmg ≤ 0` — in particular a 0-damage miss still reports death when
the defender's hp was already `≤ 0`. -/
theorem c5_attack_damage_and_death (a t : Actor) (r : Rng) :
    (((randFloat r).1 < (a.speed : ℚ) / ((a.speed : ℚ) + (t.speed : ℚ))) →
      (a.attack_target t r).dmg =
        max 1 ((randint 1 a.attack (randFloat r).2).1 - t.defense) ∧
      1 ≤ (a.attack_target t r).dmg) ∧
    ((¬ ((randFloat r).1 < (a.speed : ℚ) / ((a.speed : ℚ) + (t.speed : ℚ)))) →
      (a.attack_target t r).dmg = 0) ∧
    ((a.attack_target t r).died = true ↔ t.hp - (a.attack_target t r).dmg ≤ 0) ∧
    (a.attack_target t r).target.hp = t.hp - (a.attack_target t r).dmg := by
  by_cases hu : (randFloat r).1 < (a.speed : ℚ) / ((a.speed : ℚ) + (t.speed : ℚ))
  · rw [attack_target_hit a t r hu]
    refine ⟨fun _ => ⟨rfl, le_max_left 1 _⟩, fun hc => absurd hu hc, ?_, rfl⟩
    simp [Actor.take_damage]
  · rw [attack_target_miss a t r hu]
    refine ⟨fun hc => absurd hc hu, fun _ => rfl, ?_, rfl⟩
    simp [Actor.take_damage]

/-- Rng stream stuck at the draw 500000, putting `randFloat` exactly at
the 1/2 hit threshold (a miss, since the comparison is strict). -/
def rngHalf : Rng := ⟨fun _ => 500000, 0⟩

/-- A rat whose hp is already 0, for exercising the death-on-miss path. -/
def deadRat : Actor :=
  { Monster.make 0 0 ⟨"Rat", "r", (150, 150, 150), 10, 3, 0, 2, 10⟩ with hp := 0 }

/-- Witness for C5: a Warrior (speed 2) swings at the 0-hp rat (speed 2)
with the roll pinned to 1/2 — a miss; the damage is 0 and death is still
reported. -/
theorem c5_attack_damage_and_death_witness :
    ((Warrior.make 0 0).attack_target deadRat rngHalf).dmg = 0 ∧
    ((Warrior.make 0 0).attack_target deadRat rngHalf).died = true := by
  have h := c5_attack_damage_and_death (Warrior.make 0 0) deadRat rngHalf
  have hmiss : ¬ ((randFloat rngHalf).1 <
      ((Warrior.make 0 0).speed : ℚ) /
        (((Warrior.make 0 0).speed : ℚ) + (deadRat.speed : ℚ))) := by
    norm_num [randFloat, Rng.next, rngHalf, deadRat, Warrior.make, Actor.make,
      Monster.make]
  have hdmg := h.2.1 hmiss
  refine ⟨hdmg, h.2.2.1.mpr ?_⟩
  rw [hdmg]
  norm_num [deadRat, Monster.make, Actor.make]
-- batch6: C4 floor transition
/-- C4: whenever the new floor has a first accepted room, the stairs
transition succeeds and carries the player's inventory, level and xp over
unchanged, leaves hp (and max hp) untouched rather than resetting it, and
repositions the player at the first room's center; the regenerated floor
is installed as the new map. -/
theorem c4_next_floor_preserves (p : Actor) (m : GameMap) (r : Rng) (r0 : Rect)
    (h : m.rooms.head? = some r0) :
    ∃ g' r', next_floor_with_map (some p) m r = .ok (g', r') ∧
      g'.player.inventory = p.inventory ∧
      g'.player.level = p.level ∧
      g'.player.xp = p.xp ∧
      g'.player.hp = p.hp ∧
      g'.player.max_hp = p.max_hp ∧
      g'.player.x = r0.center.1 ∧
      g'.player.y = r0.center.2 ∧
      g'.game_map = m := by
  unfold next_floor_with_map
  rw [h]
  exact ⟨_, _, rfl, rfl, rfl, rfl, rfl, rfl, rfl, rfl, rfl⟩

/-- One-room 40x30 floor used by the C4 witness; the room center is
`(5, 6)`. -/
def mapOneRoom : GameMap :=
  { width := 40, height := 30, tiles := fun _ _ => Tile.make true,
    rooms := [⟨2, 3, 8, 9⟩], items := [stairsAt 5 6], stairs := stairsAt 5 6 }

/-- A travelled player: some xp, a level, an item in the bag, nonfull hp. -/
def veteran : Actor :=
  { Warrior.make 1 1 with
    hp := 17
    level := 3
    xp := 40
    inventory := [⟨9, 9, "Health Potion", "!", (255, 0, 0), some "heal"⟩] }

/-- Witness for C4 on the concrete one-room floor: the transition
succeeds and preserves the veteran's inventory, level, xp and hp while
moving the player to `(5, 6)`. -/
theorem c4_next_floor_preserves_witness :
    mapOneRoom.rooms.head? = some ⟨2, 3, 8, 9⟩ ∧
    (∃ g' r', next_floor_with_map (some veteran) mapOneRoom rngZero = .ok (g', r') ∧
      g'.player.inventory = veteran.inventory ∧
      g'.player.level = veteran.level ∧
      g'.player.xp = veteran.xp ∧
      g'.player.hp = veteran.hp ∧
      g'.player.max_hp = veteran.max_hp ∧
      g'.player.x = (⟨2, 3, 8, 9⟩ : Rect).center.1 ∧
      g'.player.y = (⟨2, 3, 8, 9⟩ : Rect).center.2 ∧
      g'.game_map = mapOneRoom) :=
  ⟨rfl, c4_next_floor_preserves veteran mapOneRoom rngZero ⟨2, 3, 8, 9⟩ rfl⟩
-- batch7: preservation lemmas + C2 amended
theorem gain_xp_preserves (a : Actor) (n : Int) :
    (a.gain_xp n).x = a.x ∧ (a.gain_xp n).y = a.y ∧
    (a.gain_xp n).inventory = a.inventory ∧ (a.gain_xp n).hp = a.hp ∧
    (a.gain_xp n).max_hp = a.max_hp ∧ (a.gain_xp n).is_player = a.is_player := by
  unfold Actor.gain_xp Actor.level_up
  dsimp only
  split <;> exact ⟨rfl, rfl, rfl, rfl, rfl, rfl⟩

/-- The attacker side of an attack exchange never changes position,
inventory, hp, max hp, or the player marker (only xp/level/stat points). -/
theorem attack_target_attacker_preserves (a t : Actor) (r : Rng) :
    (a.attack_target t r).attacker.x = a.x ∧
    (a.attack_target t r).attacker.y = a.y ∧
    (a.attack_target t r).attacker.inventory = a.inventory ∧
    (a.attack_target t r).attacker.hp = a.hp ∧
    (a.attack_target t r).attacker.max_hp = a.max_hp ∧
    (a.attack_target t r).attacker.is_player = a.is_player := by
  unfold Actor.attack_target
  dsimp only
  split <;> split <;>
    first
      | exact gain_xp_preserves a (t.xp_yield.getD 0)
      | exact ⟨rfl, rfl, rfl, rfl, rfl, rfl⟩

/-- The defender side of an attack exchange only has its hp changed. -/
theorem attack_target_target_preserves (a t : Actor) (r : Rng) :
    (a.attack_target t r).target.x = t.x ∧
    (a.attack_target t r).target.y = t.y ∧
    (a.attack_target t r).target.inventory = t.inventory ∧
    (a.attack_target t r).target.max_hp = t.max_hp ∧
    (a.attack_target t r).target.is_player = t.is_player := by
  unfold Actor.attack_target
  dsimp only
  exact ⟨rfl, rfl, rfl, rfl, rfl⟩

/-- The combat loop never changes the player's position, inventory,
max hp, or player marker (only hp, xp, level, stat points). -/
theorem combat_scan_player_preserves (p : Actor) (ms : List Actor) (r : Rng) :
    (combat_scan p ms r).1.x = p.x ∧ (combat_scan p ms r).1.y = p.y ∧
    (combat_scan p ms r).1.inventory = p.inventory ∧
    (combat_scan p ms r).1.max_hp = p.max_hp ∧
    (combat_scan p ms r).1.is_player = p.is_player := by
  induction ms with
  | nil => exact ⟨rfl, rfl, rfl, rfl, rfl⟩
  | cons a rest ih =>
      unfold combat_scan
      dsimp only
      split
      · split
        · have h := attack_target_attacker_preserves p a r
          exact ⟨h.1, h.2.1, h.2.2.1, h.2.2.2.2.1, h.2.2.2.2.2⟩
        · have h1 := attack_target_attacker_preserves p a r
          have h2 := attack_target_target_preserves
            ((p.attack_target a r).target) ((p.attack_target a r).attacker)
            ((p.attack_target a r).rng)
          exact ⟨h2.1.trans h1.1, h2.2.1.trans h1.2.1,
            h2.2.2.1.trans h1.2.2.1, h2.2.2.2.1.trans h1.2.2.2.2.1,
            h2.2.2.2.2.trans h1.2.2.2.2.2⟩
      · exact ih

/-- The item scan returns the head item when it sits at the player's
position. -/
theorem items_scan_head (p : Actor) (it : Item) (its : List Item)
    (hx : it.x = p.x) (hy : it.y = p.y) :
    items_scan p (it :: its) = some it := by
  unfold items_scan
  rw [if_pos ⟨hx, hy⟩]

/-- C2 amended: the item/stairs check is not skipped after a combat — it
runs every turn on the post-combat state.  If some monster shares the
player's position (so a combat resolves this turn) and the head floor
item is a heal item at the player's position, that item is still healed
from, added to the inventory, and removed from the floor in the same
turn. -/
theorem c2_item_check_runs_after_combat (g : Game) (r : Rng) (itm : Item)
    (hcombat : g.monsters.any
      (fun m => !m.is_player && (m.x == g.player.x) && (m.y == g.player.y)) = true)
    (hhead : g.game_map.items.head? = some itm)
    (hx : itm.x = g.player.x) (hy : itm.y = g.player.y)
    (he : itm.effect = some "heal") :
    ∃ g' r', g.combat_and_items r = .ok (g', r') ∧
      g'.player.inventory = g.player.inventory ++ [itm] ∧
      g'.game_map.items = g.game_map.items.tail ∧
      g'.player.hp = min g.player.max_hp ((g.combat_step r).1.player.hp + 10) := by
  have hpres := combat_scan_player_preserves g.player g.monsters r
  obtain ⟨tl, htl⟩ : ∃ tl, g.game_map.items = itm :: tl := by
    cases hcase : g.game_map.items with
    | nil => rw [hcase] at hhead; simp at hhead
    | cons b tlb =>
        rw [hcase] at hhead
        simp only [List.head?_cons, Option.some.injEq] at hhead
        exact ⟨tlb, by rw [hhead]⟩
  unfold Game.combat_and_items Game.combat_step Game.items_step
  dsimp only
  rw [htl]
  rw [items_scan_head _ _ _ (hx.trans hpres.1.symm) (hy.trans hpres.2.1.symm)]
  dsimp only
  rw [he]
  rw [if_neg (by simp), if_pos rfl]
  refine ⟨_, _, rfl, ?_, ?_, ?_⟩
  · dsimp only
    rw [hpres.2.2.1]
  · dsimp only
    rw [List.erase_cons_head]
    rfl
  · dsimp only
    rw [hpres.2.2.2.1]

/-- Goblin template row. -/
def goblinT : MonsterTemplate := ⟨"Goblin", "g", (0, 150, 0), 16, 5, 1, 2, 20⟩

/-- Health potion at a given position. -/
def potionAt (x y : Int) : Item :=
  ⟨x, y, "Health Potion", "!", (255, 0, 0), some "heal"⟩

/-- State with the player, a goblin, and a heal potion all on tile
`(3, 3)`: the turn both resolves a combat and finds a floor item. -/
def gClash : Game :=
  { game_map :=
      { width := 40, height := 30, tiles := fun _ _ => Tile.make false,
        rooms := [⟨0, 0, 6, 6⟩], items := [potionAt 3 3], stairs := stairsAt 3 3 },
    player := Warrior.make 3 3,
    monsters := [Monster.make 3 3 goblinT] }

/-- Witness for the amended C2 on `gClash`: a combat resolves and the
potion is still picked up in the same turn. -/
theorem c2_item_check_runs_after_combat_witness :
    gClash.monsters.any
      (fun m => !m.is_player && (m.x == gClash.player.x) &&
        (m.y == gClash.player.y)) = true ∧
    (∃ g' r', gClash.combat_and_items rngZero = .ok (g', r') ∧
      g'.player.inventory = gClash.player.inventory ++ [potionAt 3 3] ∧
      g'.game_map.items = gClash.game_map.items.tail ∧
      g'.player.hp = min gClash.player.max_hp
        ((gClash.combat_step rngZero).1.player.hp + 10)) :=
  ⟨by decide,
   c2_item_check_runs_after_combat gClash rngZero (potionAt 3 3)
     (by decide) rfl rfl rfl rfl⟩
-- batch8: C2 counterexample
/-- C2 counterexample: on `gClash` a combat resolves (the goblin shares
the player's tile), yet the same turn still picks the potion up — the
item/stairs check is not skipped, whatever the combat rolls were. -/
theorem c2_item_check_not_skipped_counterexample :
    ((gClash.monsters.head?).map
      (fun m => (m.is_player, m.x, m.y)) = some (false, 3, 3) ∧
     gClash.player.x = 3 ∧ gClash.player.y = 3) ∧
    ∃ g' r', gClash.combat_and_items rngZero = .ok (g', r') ∧
      g'.player.inventory = [potionAt 3 3] ∧
      g'.game_map.items = [] := by
  refine ⟨⟨rfl, rfl, rfl⟩, ?_⟩
  unfold Game.combat_and_items Game.combat_step combat_scan Actor.attack_target
  dsimp only [gClash]
  rw [if_pos ⟨rfl, rfl, rfl⟩]
  split
  · rw [if_neg (by decide)]
    split
    · exact ⟨_, _, rfl, by decide, by decide⟩
    · exact ⟨_, _, rfl, by decide, by decide⟩
  · rw [if_neg (by decide)]
    split
    · exact ⟨_, _, rfl, by decide, by decide⟩
    · exact ⟨_, _, rfl, by decide, by decide⟩
-- batch9: C10
theorem foldl_preserves {α β : Type} (P : α → Prop) (f : α → β → α)
    (hf : ∀ s b, P s → P (f s b)) :
    ∀ (l : List β) (s : α), P s → P (l.foldl f s) := by
  intro l
  induction l with
  | nil => intro s hs; exact hs
  | cons b rest ih => intro s hs; exact ih _ (hf s b hs)

theorem spawnOne_flags (room : Rect) (p : List Actor × Rng)
    (h : ∀ a ∈ p.1, a.is_player = false) :
    ∀ a ∈ (spawnOne room p).1, a.is_player = false := by
  intro a ha
  unfold spawnOne at ha
  dsimp only at ha
  rcases List.mem_append.mp ha with h1 | h2
  · exact h a h1
  · rw [List.mem_singleton] at h2
    subst h2
    rfl

theorem spawnRoom_flags (room : Rect) (acc : List Actor × Rng)
    (h : ∀ a ∈ acc.1, a.is_player = false) :
    ∀ a ∈ (spawnRoom room acc).1, a.is_player = false := by
  unfold spawnRoom
  dsimp only
  exact foldl_preserves (fun st => ∀ a ∈ st.1, a.is_player = false) _
    (fun s b hs => spawnOne_flags room s hs)
    (List.range (randint 0 3 acc.2).1.toNat) (acc.1, (randint 0 3 acc.2).2) h

/-- Monsters respawned on a floor transition are never the player. -/
theorem spawn_monsters_flags (m : GameMap) (r : Rng) :
    ∀ a ∈ (spawn_monsters m r).1, a.is_player = false := by
  unfold spawn_monsters
  exact foldl_preserves (fun st => ∀ a ∈ st.1, a.is_player = false) _
    (fun s room hs => spawnRoom_flags room s hs)
    (m.rooms.drop 1) ([], r) (by simp)

/-- The combat loop only ever updates or removes monsters: every actor in
its output monster list is still a non-player. -/
theorem combat_scan_monsters_flags (p : Actor) (ms : List Actor) (r : Rng)
    (hm : ∀ a ∈ ms, a.is_player = false) :
    ∀ a ∈ (combat_scan p ms r).2.1, a.is_player = false := by
  induction ms with
  | nil => intro a ha; simp [combat_scan] at ha
  | cons b rest ih =>
      unfold combat_scan
      dsimp only
      split
      · split
        · intro a ha
          exact hm a (List.mem_cons_of_mem b ha)
        · intro a ha
          rcases List.mem_cons.mp ha with h1 | h2
          · subst h1
            have e1 := (attack_target_attacker_preserves
              ((p.attack_target b r).target) ((p.attack_target b r).attacker)
              ((p.attack_target b r).rng)).2.2.2.2.2
            have e2 := (attack_target_target_preserves p b r).2.2.2.2
            rw [e1, e2]
            exact hm b (List.mem_cons_self b rest)
          · exact hm a (List.mem_cons_of_mem b h2)
      · intro a ha
        rcases List.mem_cons.mp ha with h1 | h2
        · subst h1
          exact hm a (List.mem_cons_self a rest)
        · exact ih (fun x hx => hm x (List.mem_cons_of_mem b hx)) a h2

/-- C10: whatever the turn outcome (no combat, combat, item pickup, or a
stairs transition) and whatever the player's hp — the statement carries no
hypothesis on it, so it covers a player at hp `≤ 0` — the resulting actor
list still holds the player at its head, the player marker is unchanged,
every remaining actor in the monster tail is a non-player, and the
item/stairs scan runs on the post-combat state unconditionally.  Nothing
in the turn engine detects or handles player death. -/
theorem c10_player_never_removed (g : Game) (r : Rng)
    (hm : ∀ a ∈ g.monsters, a.is_player = false)
    (g' : Game) (r' : Rng)
    (hok : g.combat_and_items r = .ok (g', r')) :
    g'.player ∈ g'.actorsList ∧
    g'.player.is_player = g.player.is_player ∧
    (∀ a ∈ g'.monsters, a.is_player = false) ∧
    g.combat_and_items r =
      (g.combat_step r).1.items_step (g.combat_step r).2 := by
  have hflags1 := combat_scan_monsters_flags g.player g.monsters r hm
  have hpp := (combat_scan_player_preserves g.player g.monsters r).2.2.2.2
  have key : g'.player.is_player = g.player.is_player ∧
      ∀ a ∈ g'.monsters, a.is_player = false := by
    unfold Game.combat_and_items Game.combat_step Game.items_step at hok
    dsimp only at hok
    split at hok
    · rw [Except.ok.injEq, Prod.mk.injEq] at hok
      obtain ⟨hg, hr⟩ := hok
      subst hg
      exact ⟨hpp, hflags1⟩
    · split at hok
      · unfold next_floor at hok
        split at hok
        · simp at hok
        · unfold next_floor_with_map at hok
          dsimp only at hok
          split at hok
          · simp at hok
          · rw [Except.ok.injEq, Prod.mk.injEq] at hok
            obtain ⟨hg, hr⟩ := hok
            subst hg
            exact ⟨hpp, spawn_monsters_flags _ _⟩
      · rw [Except.ok.injEq, Prod.mk.injEq] at hok
        obtain ⟨hg, hr⟩ := hok
        subst hg
        refine ⟨?_, hflags1⟩
        dsimp only
        split <;> exact hpp
  exact ⟨List.mem_cons_self _ _, key.1, key.2, rfl⟩

/-- State whose player is already at negative hp, with a monster elsewhere
on the floor and an empty item list. -/
def gDead : Game :=
  { game_map :=
      { width := 40, height := 30, tiles := fun _ _ => Tile.make false,
        rooms := [⟨0, 0, 6, 6⟩], items := [], stairs := stairsAt 9 9 },
    player := { Warrior.make 3 3 with hp := -5 },
    monsters := [Monster.make 9 9 goblinT] }

/-- Witness for C10: the turn still resolves with the dead player (hp
`-5`) kept at the head of the actor list. -/
theorem c10_player_never_removed_witness :
    gDead.player.hp ≤ 0 ∧
    (gDead.player ∈ gDead.actorsList ∧
     gDead.player.is_player = gDead.player.is_player ∧
     (∀ a ∈ gDead.monsters, a.is_player = false) ∧
     gDead.combat_and_items rngZero =
       (gDead.combat_step rngZero).1.items_step (gDead.combat_step rngZero).2) :=
  ⟨by decide, c10_player_never_removed gDead rngZero (by decide) gDead rngZero rfl⟩

/-- Witness for C6 on the concrete two-room floor of `rngDemo`: both
rooms are accepted and the inclusive-bound intersection test on the
distinct pair returns false. -/
theorem c6_rooms_pairwise_disjoint_witness :
    (⟨0, 0, 6, 6⟩ : Rect) ∈ (create_rooms_and_corridors 40 30 2 rngDemo).rooms ∧
    (⟨20, 0, 26, 6⟩ : Rect) ∈ (create_rooms_and_corridors 40 30 2 rngDemo).rooms ∧
    (⟨0, 0, 6, 6⟩ : Rect).intersect ⟨20, 0, 26, 6⟩ = false :=
  ⟨by decide, by decide,
   (c6_rooms_pairwise_disjoint 40 30 2 rngDemo).2 ⟨0, 0, 6, 6⟩ (by decide)
     ⟨20, 0, 26, 6⟩ (by decide) (by decide)⟩
